import Mathlib

/-!
# ResoPrism — orchestration, ranking and caching subsystem: verification

Shallow embedding of the ResoPrism core (multi-agent research inbox:
collectors for grants, papers and news; deterministic ranking; MongoDB
caching; FastAPI orchestrator) together with the frontend TypeScript
client code under `web/` and `mongoresearchweb/`.

The frontend TypeScript (`types/research.ts`, `lib/api.ts`,
`app/demo/page.tsx`, `components/cards/ResearchCard.tsx`) is embedded
directly from the source.  The Python backend modules named by the
repository README (`ranking.py`, `orchestrator.py`, `cache.py`,
`models.py`) are not part of the checked-in sources; the definitions
for them below are modelled from the specification and the README's
own description of their behaviour, and each such definition says so
in its doc comment.
-/

/-! ## Data model (from `web/src/types/research.ts`, `src/unnamed/part_000`/`part_001`) -/

/-- `CardType` from the frontend type declarations:
`export type CardType = "grant" | "paper" | "news"` — a closed,
fixed three-element set.  The spec calls the grant type "funding". -/
inductive CardType where
  | grant
  | paper
  | news
deriving DecidableEq

/-- A value in the open `meta` bag of a card (dates, sponsor, authors,
outlet, url, source-name; numbers such as `amount_max`). -/
inductive MetaValue where
  | str (s : String)
  | num (q : ℚ)
  | strList (l : List String)
deriving DecidableEq

/-- The normalized `Card` (`InboxCard` in `types/research.ts`):
`id`, `type`, `title`, `score` (relevance in [0,1], modelled as a
rational since the ranking only compares scores), optional `badge`,
and the open `meta` key/value bag. -/
structure Card where
  id : String
  type : CardType
  title : String
  score : ℚ
  badge : Option String := none
  meta : List (String × MetaValue) := []
deriving DecidableEq

/-! ## Ranking engine -/

/-- Type priority used by the ranking rules (README "Ranking Rules":
grant > paper > news); smaller number = higher priority. -/
def typePriority : CardType → Nat
  | .grant => 0
  | .paper => 1
  | .news => 2

/-- Modelled from the spec: `ranking.py` is not under the checked-in
sources.  Comparator for the deterministic ranking, applied as
successive tie-breakers per §4.4 and the README's "Ranking Rules":
1. `score` descending, 2. type priority grant(funding) > paper > news,
3. `title` ascending. -/
def cardLe (c d : Card) : Bool :=
  if d.score < c.score then true
  else if c.score < d.score then false
  else if typePriority c.type < typePriority d.type then true
  else if typePriority d.type < typePriority c.type then false
  else decide (c.title ≤ d.title)

/-- The ranking order as a relation. -/
def CardR (c d : Card) : Prop := cardLe c d = true

instance : DecidableRel CardR := fun _ _ => inferInstanceAs (Decidable (_ = true))

/-- Modelled from the spec: `ranking.py` is not under the checked-in
sources.  `rank(cards) -> cards`: a pure, deterministic, stable
total-order sort of the merged cards (§4.4), realised as a stable
insertion sort with the `cardLe` comparator. -/
def rank (cards : List Card) : List Card := List.insertionSort CardR cards

/-- The ordering the spec claims for `rank`, written out as the three
successive tie-breakers: score descending, then type priority
(funding/grant before paper before news), then title ascending. -/
def RankedBefore (c d : Card) : Prop :=
  d.score < c.score
    ∨ (c.score = d.score ∧ typePriority c.type < typePriority d.type)
    ∨ (c.score = d.score ∧ c.type = d.type ∧ c.title ≤ d.title)

/-- Two cards agree on all three ranking keys (score, type, title). -/
def sameRankKey (c d : Card) : Bool :=
  decide (c.score = d.score ∧ c.type = d.type ∧ c.title = d.title)

theorem typePriority_injective {s t : CardType}
    (h : typePriority s = typePriority t) : s = t := by
  cases s <;> cases t <;> simp [typePriority] at h ⊢

theorem cardLe_iff {c d : Card} : cardLe c d = true ↔ RankedBefore c d := by
  unfold cardLe RankedBefore
  split_ifs with h1 h2 h3 h4
  · simp [h1]
  · have hne : c.score ≠ d.score := ne_of_lt h2
    simp [h1, hne]
  · have he : c.score = d.score := le_antisymm (not_lt.mp h1) (not_lt.mp h2)
    simp [he, h3]
  · have he : c.score = d.score := le_antisymm (not_lt.mp h1) (not_lt.mp h2)
    have hne : c.type ≠ d.type := fun h => lt_irrefl _ (h ▸ h4)
    simp [he, h3, hne]
  · have he : c.score = d.score := le_antisymm (not_lt.mp h1) (not_lt.mp h2)
    have ht : c.type = d.type :=
      typePriority_injective (le_antisymm (not_lt.mp h4) (not_lt.mp h3))
    simp [he, ht, h3]

instance : IsTotal Card CardR := by
  constructor
  intro a b
  simp only [CardR, cardLe_iff, RankedBefore]
  rcases lt_trichotomy a.score b.score with h | h | h
  · right; left; exact h
  · rcases lt_trichotomy (typePriority a.type) (typePriority b.type) with hp | hp | hp
    · left; right; left; exact ⟨h, hp⟩
    · have ht := typePriority_injective hp
      rcases le_total a.title b.title with hles | hles
      · left; right; right; exact ⟨h, ht, hles⟩
      · right; right; right; exact ⟨h.symm, ht.symm, hles⟩
    · right; right; left; exact ⟨h.symm, hp⟩
  · left; left; exact h

instance : IsTrans Card CardR := by
  constructor
  intro a b c hab hbc
  simp only [CardR, cardLe_iff, RankedBefore] at hab hbc ⊢
  rcases hab with h1 | ⟨e1, h1⟩ | ⟨e1, t1, h1⟩ <;>
    rcases hbc with h2 | ⟨e2, h2⟩ | ⟨e2, t2, h2⟩
  · left; exact lt_trans h2 h1
  · left; exact e2 ▸ h1
  · left; exact e2 ▸ h1
  · left; exact e1 ▸ h2
  · right; left; exact ⟨e1.trans e2, lt_trans h1 h2⟩
  · right; left; exact ⟨e1.trans e2, t2 ▸ h1⟩
  · left; exact e1 ▸ h2
  · right; left; exact ⟨e1.trans e2, t1 ▸ h2⟩
  · right; right; exact ⟨e1.trans e2, t1.trans t2, le_trans h1 h2⟩

/-- C1: `rank` returns the input sorted by the total order applied as
successive tie-breakers — score descending, then type priority with
funding(grant) before paper before news, then title ascending — as a
pure, deterministic function (a Lean function by construction); the
sort is stable: filtering the output by any full ranking key yields
the same list, in the same order, as filtering the input. -/
theorem rank_sorts_stably (xs : List Card) :
    (rank xs).Perm xs ∧ (rank xs).Pairwise RankedBefore ∧
    ∀ k : Card, (rank xs).filter (sameRankKey k) = xs.filter (sameRankKey k) := by
  refine ⟨List.perm_insertionSort CardR xs,
    (List.sorted_insertionSort CardR xs).imp (fun hab => cardLe_iff.mp hab), ?_⟩
  intro k
  have hsub : List.Sublist (xs.filter (sameRankKey k)) xs := List.filter_sublist xs
  have hpair : (xs.filter (sameRankKey k)).Pairwise CardR := by
    apply List.pairwise_of_forall_mem_list
    intro a ha b hb
    have hka := List.of_mem_filter ha
    have hkb := List.of_mem_filter hb
    simp only [sameRankKey, decide_eq_true_eq] at hka hkb
    exact cardLe_iff.mpr (Or.inr (Or.inr
      ⟨hka.1.symm.trans hkb.1, hka.2.1.symm.trans hkb.2.1,
        le_of_eq (hka.2.2.symm.trans hkb.2.2)⟩))
  have h2 : List.Sublist (xs.filter (sameRankKey k)) (rank xs) :=
    List.sublist_insertionSort hpair hsub
  have h3 : List.Sublist (xs.filter (sameRankKey k))
      ((rank xs).filter (sameRankKey k)) := by
    have hf := h2.filter (sameRankKey k)
    have hself : (xs.filter (sameRankKey k)).filter (sameRankKey k)
        = xs.filter (sameRankKey k) :=
      List.filter_eq_self.mpr (fun a ha => (List.mem_filter.mp ha).2)
    rwa [hself] at hf
  have h4 : ((rank xs).filter (sameRankKey k)).length
      = (xs.filter (sameRankKey k)).length :=
    ((List.perm_insertionSort CardR xs).filter _).length_eq
  exact (h3.eq_of_length h4.symm).symm

/-- C4: `rank` is idempotent — re-ranking an already-ranked,
unmodified list returns it unchanged. -/
theorem rank_idempotent (xs : List Card) : rank (rank xs) = rank xs :=
  (List.sorted_insertionSort CardR xs).insertionSort_eq

/-! ## Orchestrator (modelled from the spec; `orchestrator.py` is not
under the checked-in sources, only the README description and the
frontend response types are) -/

/-- The caller's intent (`"grants" | "papers" | "news" | "all"` in
`types/research.ts` and the README's "Supported Intents"). -/
inductive Intent where
  | grants
  | papers
  | news
  | all
deriving DecidableEq

/-- The three collector sources (grants / papers / news agents). -/
inductive Source where
  | grants
  | papers
  | news
deriving DecidableEq

/-- Modelled from the spec: which collectors an intent dispatches
(README "Supported Intents": a specific intent runs only that agent,
`all` runs all three). -/
def dispatchList : Intent → List Source
  | .grants => [Source.grants]
  | .papers => [Source.papers]
  | .news => [Source.news]
  | .all => [Source.grants, Source.papers, Source.news]

/-- A failed collector's record in `errors[]`: source tag plus
message (§4.5 step 4: "failed sources, with source tag + message"). -/
structure SourceError where
  source : Source
  message : String
deriving DecidableEq

/-- The Response Envelope (`ResearchResponse` in `types/research.ts`):
`user_query`, `intent`, the three typed lists, the merged ranked feed
`inbox_cards`, and the accumulated `errors`. -/
structure ResearchResponse where
  user_query : String
  intent : Intent
  grants : List Card
  papers : List Card
  news : List Card
  inbox_cards : List Card
  errors : List SourceError
deriving DecidableEq

/-- Modelled from the spec: `orchestrator.py` is not under the
checked-in sources.  The Orchestrator algorithm of §4.5 over the
outcomes of the dispatched collectors (`run s` is collector `s`'s
outcome: a card list or a typed error): partition outcomes into
`errors[]` and flattened successful `records[]`, group records by
type for the typed lists, rank the merged records into `inbox_cards`,
and always assemble a well-formed envelope (the function is total, so
a collector failure can never abort the request). -/
def orchestrate (query : String) (intent : Intent)
    (run : Source → Except String (List Card)) : ResearchResponse :=
  let ds := dispatchList intent
  let errors := ds.filterMap (fun s =>
    match run s with
    | .error m => some ⟨s, m⟩
    | .ok _ => none)
  let records := (ds.map (fun s =>
    match run s with
    | .ok cs => cs
    | .error _ => [])).flatten
  { user_query := query
    intent := intent
    grants := records.filter (fun c => decide (c.type = CardType.grant))
    papers := records.filter (fun c => decide (c.type = CardType.paper))
    news := records.filter (fun c => decide (c.type = CardType.news))
    inbox_cards := rank records
    errors := errors }

/-- C2: with all three collectors dispatched, if collector `f` fails
with message `e` and the two others succeed, the merged feed is
exactly the successful collectors' cards ranked together, and
`errors` is exactly one entry tagged for `f`; the envelope is still
produced (the request is never moved to a failure state). -/
theorem orchestrate_one_failure (q e : String) (f : Source)
    (run : Source → Except String (List Card)) (ok : Source → List Card)
    (hf : run f = Except.error e)
    (hok : ∀ s, s ≠ f → run s = Except.ok (ok s)) :
    (orchestrate q Intent.all run).errors = [⟨f, e⟩] ∧
    (orchestrate q Intent.all run).inbox_cards =
      rank ((((dispatchList Intent.all).filter (fun s => decide (s ≠ f))).map ok).flatten) := by
  cases f
  · have hp := hok Source.papers (by simp)
    have hn := hok Source.news (by simp)
    constructor <;>
      simp [orchestrate, dispatchList, hf, hp, hn]
  · have hg := hok Source.grants (by simp)
    have hn := hok Source.news (by simp)
    constructor <;>
      simp [orchestrate, dispatchList, hf, hg, hn]
  · have hg := hok Source.grants (by simp)
    have hp := hok Source.papers (by simp)
    constructor <;>
      simp [orchestrate, dispatchList, hf, hg, hp]

/-- C3: when every dispatched collector fails, the call still returns
a well-formed Response Envelope (`orchestrate` is a total function,
so it cannot raise): the `grants`, `papers`, `news` and `inbox_cards`
lists are all empty and `errors` has exactly one entry per dispatched
collector. -/
theorem orchestrate_all_fail (q : String) (intent : Intent)
    (run : Source → Except String (List Card))
    (h : ∀ s ∈ dispatchList intent, ∃ m, run s = Except.error m) :
    (orchestrate q intent run).grants = [] ∧
    (orchestrate q intent run).papers = [] ∧
    (orchestrate q intent run).news = [] ∧
    (orchestrate q intent run).inbox_cards = [] ∧
    (orchestrate q intent run).errors.length = (dispatchList intent).length := by
  cases intent
  · obtain ⟨m, hm⟩ := h Source.grants (by simp [dispatchList])
    simp [orchestrate, dispatchList, hm, rank]
  · obtain ⟨m, hm⟩ := h Source.papers (by simp [dispatchList])
    simp [orchestrate, dispatchList, hm, rank]
  · obtain ⟨m, hm⟩ := h Source.news (by simp [dispatchList])
    simp [orchestrate, dispatchList, hm, rank]
  · obtain ⟨mg, hg⟩ := h Source.grants (by simp [dispatchList])
    obtain ⟨mp, hp⟩ := h Source.papers (by simp [dispatchList])
    obtain ⟨mn, hn⟩ := h Source.news (by simp [dispatchList])
    simp [orchestrate, dispatchList, hg, hp, hn, rank]

/-- C5: the card type set is closed and fixed at three elements —
every `CardType` value is grant(funding), paper or news — and every
card appearing in any assembled response (merged feed or any typed
list) has its type drawn from that set; no operation can produce a
card outside it. -/
theorem cardType_closed_set :
    (∀ t : CardType,
      t = CardType.grant ∨ t = CardType.paper ∨ t = CardType.news) ∧
    (∀ (q : String) (intent : Intent)
      (run : Source → Except String (List Card)) (c : Card),
      (c ∈ (orchestrate q intent run).inbox_cards ∨
       c ∈ (orchestrate q intent run).grants ∨
       c ∈ (orchestrate q intent run).papers ∨
       c ∈ (orchestrate q intent run).news) →
      c.type = CardType.grant ∨ c.type = CardType.paper ∨
        c.type = CardType.news) := by
  constructor
  · intro t; cases t <;> simp
  · intro q intent run c _
    cases c.type <;> simp

/-! ## Concrete cards used by the witnesses -/

/-- A concrete grant card (integer-valued score so that the kernel can
evaluate the ranking on it). -/
def sampleGrant : Card := { id := "g1", type := CardType.grant, title := "A", score := 1 }

/-- A concrete paper card with the same score as `sampleGrant`. -/
def samplePaper : Card := { id := "p1", type := CardType.paper, title := "B", score := 1 }

/-- Witness for C2 at a concrete input: the grants collector fails
with "boom" while papers and news succeed with one paper card each. -/
theorem orchestrate_one_failure_witness :
    (orchestrate "q" Intent.all
        (fun s => if s = Source.grants then Except.error "boom"
          else Except.ok [samplePaper])).errors = [⟨Source.grants, "boom"⟩] ∧
    (orchestrate "q" Intent.all
        (fun s => if s = Source.grants then Except.error "boom"
          else Except.ok [samplePaper])).inbox_cards =
      rank ((((dispatchList Intent.all).filter
        (fun s => decide (s ≠ Source.grants))).map
          (fun _ => [samplePaper])).flatten) :=
  orchestrate_one_failure "q" "boom" Source.grants _ (fun _ => [samplePaper])
    rfl (by intro s hs; cases s
            · exact absurd rfl hs
            · rfl
            · rfl)

/-- Witness for C3 at a concrete input: all three collectors fail. -/
theorem orchestrate_all_fail_witness :
    (orchestrate "q" Intent.all (fun _ => Except.error "down")).grants = [] ∧
    (orchestrate "q" Intent.all (fun _ => Except.error "down")).papers = [] ∧
    (orchestrate "q" Intent.all (fun _ => Except.error "down")).news = [] ∧
    (orchestrate "q" Intent.all (fun _ => Except.error "down")).inbox_cards = [] ∧
    (orchestrate "q" Intent.all (fun _ => Except.error "down")).errors.length
      = (dispatchList Intent.all).length :=
  orchestrate_all_fail "q" Intent.all _ (fun _ _ => ⟨"down", rfl⟩)

/-- Witness for C5 at a concrete input: a grant card appearing in a
concrete response's merged feed has its type in the closed set. -/
theorem cardType_closed_set_witness :
    sampleGrant ∈ (orchestrate "q" Intent.grants
        (fun _ => Except.ok [sampleGrant])).inbox_cards ∧
    (sampleGrant.type = CardType.grant ∨ sampleGrant.type = CardType.paper ∨
      sampleGrant.type = CardType.news) :=
  ⟨by decide, cardType_closed_set.2 "q" Intent.grants
    (fun _ => Except.ok [sampleGrant]) sampleGrant (Or.inl (by decide))⟩

/-! ## Cache store (modelled from the spec; `cache.py` is not under
the checked-in sources) -/

/-- Request fingerprint / cache key: source tag plus normalized query
fingerprint (§3 "Request Fingerprint / Cache Key"). -/
abbrev CacheKey := Source × String

/-- A cache entry: `{ key, records, fetched_at }` (§3); the key is
the lookup index of the store, so the entry holds the rest. -/
structure CacheEntry where
  records : List Card
  fetched_at : Nat
deriving DecidableEq

/-- Modelled from the spec: `cache.py` is not under the checked-in
sources.  `is_stale(entry, now)` using a per-source TTL table
(§4.2); an entry is stale once more than its source's TTL has passed
since `fetched_at`. -/
def is_stale (ttl : Source → Nat) (s : Source) (e : CacheEntry) (now : Nat) : Bool :=
  decide (e.fetched_at + ttl s < now)

/-- Modelled from the spec: `cache.py` is not under the checked-in
sources.  `put(key, records, fetched_at)`: last-write-wins full
replacement of the entry at `key` (§4.2). -/
def putEntry (store : CacheKey → Option CacheEntry) (k : CacheKey)
    (e : CacheEntry) : CacheKey → Option CacheEntry :=
  fun x => if x = k then some e else store x

/-- Modelled from the spec: the collector's cache protocol (§4.3 steps
1–3): look the fingerprint up; on a fresh hit return the cached cards
without calling the upstream source; on a miss or a stale entry call
the upstream, overwrite the entry, and return the fresh cards.
`upstream` is what the upstream collaborator would return; the `Bool`
in the result records whether it was actually invoked. -/
def fetchWithCache (ttl : Source → Nat) (store : CacheKey → Option CacheEntry)
    (s : Source) (query : String) (upstream : List Card) (now : Nat) :
    List Card × (CacheKey → Option CacheEntry) × Bool :=
  match store (s, query) with
  | some e =>
      if is_stale ttl s e now then
        (upstream, putEntry store (s, query) ⟨upstream, now⟩, true)
      else (e.records, store, false)
  | none => (upstream, putEntry store (s, query) ⟨upstream, now⟩, true)

/-- C7: after a first successful fetch for a fingerprint at `now1`, a
second request with the identical fingerprint strictly within the
per-source TTL returns the cached cards, does not invoke the upstream
collaborator (the invocation flag is `false`) and leaves the store
unchanged; once the TTL has elapsed the upstream is invoked again and
the entry is overwritten in place — the resulting store is exactly
the original store with the single fresh entry at that key (neither
appended to nor deleted). -/
theorem cache_ttl_respected (ttl : Source → Nat)
    (store0 : CacheKey → Option CacheEntry) (s : Source) (q : String)
    (cards1 : List Card) (now1 : Nat) (h0 : store0 (s, q) = none) :
    fetchWithCache ttl store0 s q cards1 now1
      = (cards1, putEntry store0 (s, q) ⟨cards1, now1⟩, true) ∧
    (∀ now2 upstream2, now2 < now1 + ttl s →
      fetchWithCache ttl (putEntry store0 (s, q) ⟨cards1, now1⟩) s q upstream2 now2
        = (cards1, putEntry store0 (s, q) ⟨cards1, now1⟩, false)) ∧
    (∀ now2 upstream2, now1 + ttl s < now2 →
      fetchWithCache ttl (putEntry store0 (s, q) ⟨cards1, now1⟩) s q upstream2 now2
        = (upstream2, putEntry store0 (s, q) ⟨upstream2, now2⟩, true)) := by
  refine ⟨?_, ?_, ?_⟩
  · unfold fetchWithCache
    rw [h0]
  · intro now2 upstream2 h2
    have hhit : putEntry store0 (s, q) ⟨cards1, now1⟩ (s, q)
        = some ⟨cards1, now1⟩ := by simp [putEntry]
    unfold fetchWithCache
    rw [hhit]
    simp [is_stale, Nat.not_lt.mpr (Nat.le_of_lt_succ (Nat.lt_succ_of_lt h2))]
  · intro now2 upstream2 h2
    have hhit : putEntry store0 (s, q) ⟨cards1, now1⟩ (s, q)
        = some ⟨cards1, now1⟩ := by simp [putEntry]
    unfold fetchWithCache
    rw [hhit]
    have hover : putEntry (putEntry store0 (s, q) ⟨cards1, now1⟩) (s, q)
        ⟨upstream2, now2⟩ = putEntry store0 (s, q) ⟨upstream2, now2⟩ := by
      funext x
      by_cases hx : x = (s, q) <;> simp [putEntry, hx]
    simp [is_stale, h2, hover]

/-- Witness for C7 at a concrete input: TTL 10, entry fetched at time
0; a request at time 5 serves the cache without invoking the
upstream, a request at time 11 re-invokes it and overwrites the
entry. -/
theorem cache_ttl_respected_witness :
    fetchWithCache (fun _ => 10)
        (putEntry (fun _ => none) (Source.news, "q") ⟨[sampleGrant], 0⟩)
        Source.news "q" [samplePaper] 5
      = ([sampleGrant],
          putEntry (fun _ => none) (Source.news, "q") ⟨[sampleGrant], 0⟩,
          false) ∧
    fetchWithCache (fun _ => 10)
        (putEntry (fun _ => none) (Source.news, "q") ⟨[sampleGrant], 0⟩)
        Source.news "q" [samplePaper] 11
      = ([samplePaper],
          putEntry (fun _ => none) (Source.news, "q") ⟨[samplePaper], 11⟩,
          true) :=
  ⟨(cache_ttl_respected (fun _ => 10) (fun _ => none) Source.news "q"
      [sampleGrant] 0 rfl).2.1 5 [samplePaper] (by decide),
   (cache_ttl_respected (fun _ => 10) (fun _ => none) Source.news "q"
      [sampleGrant] 0 rfl).2.2 11 [samplePaper] (by decide)⟩

/-! ## Frontend client (`mongoresearchweb/src/lib/api.ts`,
`app/demo/page.tsx`, `components/cards/ResearchCard.tsx`) -/

/-- The `InboxRequest` body built by `fetchInbox` in
`mongoresearchweb/src/lib/api.ts`: `{ user_query: query, intent:
intent || "all" }` (the `part_002` variant adds constant
`lab_url`/`lab_profile` fields but computes `intent` identically). -/
structure InboxRequest where
  user_query : String
  intent : Intent
deriving DecidableEq

/-- The `requestBody` constructed by `fetchInbox(query, intent?)`:
an omitted (`undefined`) intent falls back to `"all"` via
`intent || "all"`; a supplied intent — one of the four non-empty
literal strings, hence truthy — is kept as is. -/
def fetchInboxRequestBody (query : String) (intent : Option Intent) : InboxRequest :=
  { user_query := query, intent := intent.getD Intent.all }

/-- C6: an explicitly supplied intent is carried verbatim in the
request sent to the backend — inference never overrides it — and an
omitted intent yields a request with intent `all`. -/
theorem fetchInbox_intent_verbatim :
    (∀ (q : String) (i : Intent),
      (fetchInboxRequestBody q (some i)).intent = i) ∧
    (∀ q : String, (fetchInboxRequestBody q none).intent = Intent.all) :=
  ⟨fun _ _ => rfl, fun _ => rfl⟩

/-- What a search attempt in the demo page does before any network
activity: either fail validation or dispatch one request. -/
inductive SearchAction where
  | validationError (message : String)
  | dispatch (request : InboxRequest)
deriving DecidableEq

/-- JavaScript's `String.prototype.trim` — strip leading and trailing
whitespace — modelled structurally on the character list. -/
def jsTrim (s : String) : String :=
  ⟨(((s.data.dropWhile Char.isWhitespace).reverse.dropWhile
      Char.isWhitespace).reverse)⟩

/-- `handleSearch` from `app/demo/page.tsx`: `if (!query.trim())`
set the validation error "Please enter a search query" and return
without calling `fetchInbox` (an empty string is falsy); otherwise
call `fetchInbox(query.trim(), intent)`. -/
def handleSearch (query : String) (intent : Intent) : SearchAction :=
  if jsTrim query = "" then
    SearchAction.validationError "Please enter a search query"
  else SearchAction.dispatch (fetchInboxRequestBody (jsTrim query) (some intent))

/-- C8: a query that is empty after normalization (trimming) produces
a caller-visible validation failure and dispatches no backend
request at all. -/
theorem handleSearch_rejects_empty (query : String) (intent : Intent)
    (h : jsTrim query = "") :
    handleSearch query intent
      = SearchAction.validationError "Please enter a search query" ∧
    ∀ req : InboxRequest,
      handleSearch query intent ≠ SearchAction.dispatch req := by
  constructor
  · simp [handleSearch, h]
  · intro req
    simp [handleSearch, h]

/-- Witness for C8 at a concrete input: a whitespace-only query. -/
theorem handleSearch_rejects_empty_witness :
    jsTrim "   " = "" ∧
    handleSearch "   " Intent.all
      = SearchAction.validationError "Please enter a search query" ∧
    handleSearch "   " Intent.all
      ≠ SearchAction.dispatch (fetchInboxRequestBody "x" (some Intent.all)) :=
  ⟨by decide, (handleSearch_rejects_empty "   " Intent.all (by decide)).1,
    (handleSearch_rejects_empty "   " Intent.all (by decide)).2 _⟩

/-- A cross-type connection in the mind-map result
(`types/research.ts` `MindMapResponse.connections` elements):
`{ from_type, to_type, description }`. -/
structure MindMapConnection where
  from_type : String
  to_type : String
  description : String
deriving DecidableEq

/-- The `MindMapResponse` wire record (`types/research.ts`,
`src/unnamed/part_000` lines 105–113): the thematic outline is
carried in a field named `markdown`, plus `themes` and
`connections`. -/
structure MindMapResponse where
  markdown : String
  themes : List String
  connections : List MindMapConnection
deriving DecidableEq

/-- The JSON field names of the `MindMapResponse` interface exactly
as declared in `src/unnamed/part_000` (the tertiary endpoint's wire
contract). -/
def mindMapResponseFields : List String := ["markdown", "themes", "connections"]

/-- What the `fetch` call inside the client functions of `lib/api.ts`
can come back with: a parsed success body, a non-2xx HTTP response
(`!response.ok` with status, statusText and error text), or a
rejected promise (network error). -/
inductive FetchOutcome (α : Type) where
  | success (data : α)
  | httpError (status : Nat) (statusText : String) (body : String)
  | networkError (message : String)
deriving DecidableEq

/-- `generateMindMap` from `mongoresearchweb/src/lib/api.ts` as a
function of the backend outcome: a 2xx response yields the parsed
`MindMapResponse`; `!response.ok` throws
`API request failed: ${status} ${statusText}. ${errorText}` which the
`catch` block rewraps as `Failed to generate mind map: ...`; a
network failure is rewrapped the same way.  Both failure shapes are
surfaced as `Except.error`. -/
def generateMindMap (out : FetchOutcome MindMapResponse) :
    Except String MindMapResponse :=
  match out with
  | .success d => Except.ok d
  | .httpError status statusText body =>
      Except.error ("Failed to generate mind map: API request failed: "
        ++ toString status ++ " " ++ statusText ++ ". " ++ body)
  | .networkError m =>
      Except.error ("Failed to generate mind map: " ++ m)

/-- C9 counterexample: the tertiary (mind-map) endpoint's successful
result has no `outline` field — the outline is carried in a field
named `markdown` — so the claim as stated fails on the declared wire
contract. -/
theorem mindMap_outline_field_absent :
    "outline" ∉ mindMapResponseFields ∧ "markdown" ∈ mindMapResponseFields := by
  decide

/-- C9 (amended): the tertiary (mind-map) endpoint's successful
result is a record whose markdown-outline field is named `markdown`,
with a `themes` list of strings and a `connections` list whose
elements each carry a from-type, a to-type and a description (the
`MindMapResponse` / `MindMapConnection` structures); the caller
receives the parsed record exactly on a successful backend response,
and on any failure receives a typed error value — the dispatch is
total, so it cannot crash. -/
theorem generateMindMap_contract (out : FetchOutcome MindMapResponse) :
    (∃ d : MindMapResponse, out = FetchOutcome.success d ∧
      generateMindMap out = Except.ok d) ∨
    ((∀ d : MindMapResponse, out ≠ FetchOutcome.success d) ∧
      ∃ msg : String, generateMindMap out = Except.error msg) := by
  cases out with
  | success d => exact Or.inl ⟨d, rfl, rfl⟩
  | httpError status statusText body =>
      exact Or.inr ⟨fun d h => FetchOutcome.noConfusion h, ⟨_, rfl⟩⟩
  | networkError m =>
      exact Or.inr ⟨fun d h => FetchOutcome.noConfusion h, ⟨_, rfl⟩⟩

/-- `InboxCard` as it reaches the `ResearchCard` component at the
JavaScript runtime boundary (`components/cards/ResearchCard.tsx`):
the `switch` there dispatches on the string value of `card.type` and
has a `default` branch for values outside the three declared
literals, so `type` is modelled as an arbitrary string here. -/
structure RuntimeInboxCard where
  id : String
  type : String
  title : String
  score : ℚ
  badge : Option String := none
deriving DecidableEq

/-- The three renderings the dispatch can produce (`<GrantCard/>`,
`<PaperCard/>`, `<NewsCard/>`). -/
inductive RenderedCard where
  | grantView (card : RuntimeInboxCard)
  | paperView (card : RuntimeInboxCard)
  | newsView (card : RuntimeInboxCard)
deriving DecidableEq

/-- The `ResearchCard` component dispatch
(`components/cards/ResearchCard.tsx`): `switch (card.type)` renders
`GrantCard` for "grant", `PaperCard` for "paper", `NewsCard` for
"news", and returns `null` in the `default` branch. -/
def ResearchCard (card : RuntimeInboxCard) : Option RenderedCard :=
  if card.type = "grant" then some (RenderedCard.grantView card)
  else if card.type = "paper" then some (RenderedCard.paperView card)
  else if card.type = "news" then some (RenderedCard.newsView card)
  else none

/-- C10: the `ResearchCard` dispatch is a total function (it can
never throw): it returns the grant rendering exactly on type
"grant", the paper rendering exactly on "paper", the news rendering
exactly on "news", and `null` (`none`) for any other type value. -/
theorem researchCard_total_dispatch (card : RuntimeInboxCard) :
    (card.type = "grant" →
      ResearchCard card = some (RenderedCard.grantView card)) ∧
    (card.type = "paper" →
      ResearchCard card = some (RenderedCard.paperView card)) ∧
    (card.type = "news" →
      ResearchCard card = some (RenderedCard.newsView card)) ∧
    (card.type ≠ "grant" → card.type ≠ "paper" → card.type ≠ "news" →
      ResearchCard card = none) := by
  refine ⟨fun h => ?_, fun h => ?_, fun h => ?_, fun h1 h2 h3 => ?_⟩
  · simp [ResearchCard, h]
  · simp [ResearchCard, h]
  · simp [ResearchCard, h]
  · simp [ResearchCard, h1, h2, h3]

/-- Witness for C10 at a concrete input: a card whose runtime type
string is outside the closed set renders as `null`. -/
theorem researchCard_total_dispatch_witness :
    ResearchCard ⟨"x1", "widget", "T", 0, none⟩ = none :=
  (researchCard_total_dispatch ⟨"x1", "widget", "T", 0, none⟩).2.2.2
    (by decide) (by decide) (by decide)

/-- Witness for the amended C9 at a concrete input: a failed backend
call surfaces as a typed error value. -/
theorem generateMindMap_contract_witness :
    (∃ d : MindMapResponse,
      (FetchOutcome.networkError "down" : FetchOutcome MindMapResponse)
        = FetchOutcome.success d ∧
      generateMindMap (FetchOutcome.networkError "down") = Except.ok d) ∨
    ((∀ d : MindMapResponse,
      (FetchOutcome.networkError "down" : FetchOutcome MindMapResponse)
        ≠ FetchOutcome.success d) ∧
      ∃ msg : String,
        generateMindMap (FetchOutcome.networkError "down")
          = Except.error msg) :=
  generateMindMap_contract (FetchOutcome.networkError "down")
